/-
Verification of the single-provider scheduling engine of the
bluestone-scheduling-chatbot repository (Python sources under src/).

The Python code is shallowly embedded: pure helpers become Lean
functions on Nat / Int / Rat, the MIP built by
create_and_solve_optimization_model becomes an explicit constraint
satisfaction predicate over an assignment record, and fallible control
flow becomes Except values.  Dates are modelled as serial day numbers
n : Nat anchored so that n % 7 = 0 means Monday; this matches Python
date.toordinal() - 1, since 0001-01-01 (ordinal 1) is a Monday and
date.weekday() returns 0 for Monday.
-/
import Mathlib

/-! ## Python rounding

Python round() rounds to the nearest integer with ties going to the
even neighbour (banker rounding).  round(x, 2) rounds to two decimal
places the same way.  We model both on the rationals. -/

/-- Embedding of Python round(q) on rationals: nearest integer, ties to
the even neighbour. -/
def pyRound (q : ℚ) : ℤ :=
  let n := ⌊q⌋
  let r := q - n
  if r < 1/2 then n
  else if 1/2 < r then n + 1
  else if Even n then n else n + 1

/-- Embedding of Python round(q, 2): round to a multiple of 1/100. -/
def round2 (q : ℚ) : ℚ := (pyRound (q * 100) : ℚ) / 100

/-- A rational lying on the two-decimal grid (an integer number of
hundredths). -/
def OnGrid (q : ℚ) : Prop := ∃ k : ℤ, q = (k : ℚ) / 100

theorem pyRound_intCast (k : ℤ) : pyRound (k : ℚ) = k := by
  simp [pyRound]

theorem round2_onGrid (q : ℚ) (h : OnGrid q) : round2 q = q := by
  obtain ⟨k, rfl⟩ := h
  have h100 : ((k : ℚ) / 100) * 100 = (k : ℚ) := by field_simp
  rw [round2, h100, pyRound_intCast]

theorem OnGrid.add {a b : ℚ} (ha : OnGrid a) (hb : OnGrid b) : OnGrid (a + b) := by
  obtain ⟨j, rfl⟩ := ha
  obtain ⟨k, rfl⟩ := hb
  exact ⟨j + k, by push_cast; ring⟩

theorem OnGrid.zero : OnGrid 0 := ⟨0, by norm_num⟩

/-! ## Horizon builder

Source: src/models/ortools_travel_optimized_model.py lines 71-93.  When
start_monday parses, the code walks the half-open calendar range
[start, start + 7 * weeks) one day at a time and keeps the dates whose
weekday() is below 5 (Monday..Friday). -/

/-- Embedding of Python date.weekday() on serial day numbers: 0 is
Monday, 4 is Friday, 5 and 6 are the weekend. -/
def pyWeekday (n : ℕ) : ℕ := n % 7

/-- Embedding of the working-day loop of
create_and_solve_optimization_model (model file lines 78-85): all days
of the half-open range [start, start + 7 * weeks) whose weekday is
Monday through Friday, in the order the loop visits them. -/
def workingDaysList (start weeks : ℕ) : List ℕ :=
  ((List.range (7 * weeks)).map (fun k => start + k)).filter
    (fun n => decide (pyWeekday n < 5))

theorem mem_workingDaysList (start weeks n : ℕ) :
    n ∈ workingDaysList start weeks ↔
      start ≤ n ∧ n < start + 7 * weeks ∧ pyWeekday n < 5 := by
  simp only [workingDaysList, List.mem_filter, List.mem_map, List.mem_range,
    decide_eq_true_eq]
  constructor
  · rintro ⟨⟨k, hk, rfl⟩, h5⟩
    exact ⟨Nat.le_add_right _ _, by omega, h5⟩
  · rintro ⟨h1, h2, h3⟩
    exact ⟨⟨n - start, by omega, by omega⟩, h3⟩

theorem workingDaysList_sorted (start weeks : ℕ) :
    List.Pairwise (fun a b => a < b) (workingDaysList start weeks) := by
  apply List.Pairwise.filter
  rw [List.pairwise_map]
  exact (List.pairwise_lt_range (7 * weeks)).imp (by omega)

theorem workingDaysList_length_monday (start weeks : ℕ) (h : pyWeekday start = 0) :
    (workingDaysList start weeks).length = 5 * weeks := by
  have key : ∀ w : ℕ,
      ((List.range (7 * w)).countP (fun k => decide ((start + k) % 7 < 5))) = 5 * w := by
    intro w
    induction w with
    | zero => simp
    | succ m ih =>
      have h7 : 7 * (m + 1) = 7 * m + 7 := by ring
      rw [h7, List.range_add, List.countP_append, ih]
      have hblock : (List.range 7).map (fun k => 7 * m + k) =
          [7 * m + 0, 7 * m + 1, 7 * m + 2, 7 * m + 3, 7 * m + 4, 7 * m + 5, 7 * m + 6] := by
        rfl
      rw [hblock]
      have hs : start % 7 = 0 := h
      have c0 : (start + (7 * m + 0)) % 7 < 5 := by omega
      have c1 : (start + (7 * m + 1)) % 7 < 5 := by omega
      have c2 : (start + (7 * m + 2)) % 7 < 5 := by omega
      have c3 : (start + (7 * m + 3)) % 7 < 5 := by omega
      have c4 : (start + (7 * m + 4)) % 7 < 5 := by omega
      have c5 : ¬ (start + (7 * m + 5)) % 7 < 5 := by omega
      have c6 : ¬ (start + (7 * m + 6)) % 7 < 5 := by omega
      simp [List.countP_cons, c0, c1, c2, c3, c4, c5, c6, hs]
      omega
  have hlen : (workingDaysList start weeks).length =
      ((List.range (7 * weeks)).map (fun k => start + k)).countP
        (fun n => decide (pyWeekday n < 5)) := by
    rw [workingDaysList, List.countP_eq_length_filter]
  rw [hlen, List.countP_map]
  exact key weeks

/-! ## Adjusted patient requirements

Source: model file lines 134-140.  Each census count is scaled by
(1 + alpha) and rounded with Python round; the list is padded with
zeros up to the facility count and then truncated to it. -/

/-- Embedding of max(0, round(count * (1 + alpha))) from model file
line 135, as a natural number. -/
def adjustedRequirement (alpha : ℚ) (count : ℚ) : ℕ :=
  (max 0 (pyRound (count * (1 + alpha)))).toNat

/-- Embedding of the patient_requirements list (model file lines
135-138): per-facility adjusted counts, zero padded and truncated to
the facility count. -/
def patientRequirements (alpha : ℚ) (counts : List ℚ) (facilities : ℕ) : List ℕ :=
  ((counts.map (adjustedRequirement alpha)) ++
    List.replicate (facilities - counts.length) 0).take facilities

/-- Embedding of total_real_demand (model file line 140): the adjusted
demand D-hat, summed after per-facility rounding. -/
def totalRealDemand (alpha : ℚ) (counts : List ℚ) (facilities : ℕ) : ℕ :=
  (patientRequirements alpha counts facilities).sum

/-! ## The MIP built by create_and_solve_optimization_model

Source: model file lines 232-471 (variables and constraints) and
473-562 (objective).  An instance record collects the inputs the
builder reads; an assignment record gives a value to every decision
variable; satisfiesModel states that the assignment satisfies every
linear constraint the builder emits.  Sums follow the coefficient sets
of the source loops; a window day list is deduplicated because
SetCoefficient overwrites a coefficient instead of accumulating it. -/

/-- Inputs of one model build, after the data extraction at the top of
create_and_solve_optimization_model: the aggregated (non
provider-specific) demand branch of CONSTRAINT 1 applies. -/
structure ModelInst where
  facilities : ℕ
  totalDays : ℕ
  maxPatientsPerDay : ℕ
  activeProviders : List ℕ
  validPairs : List (ℕ × ℕ)
  alpha : ℚ
  patientCounts : List ℚ
  homeTime : ℕ → ℕ → ℚ
  ffTime : ℕ → ℕ → ℚ
  availability : ℕ → ℕ → Bool
  requiredVisits : List (ℕ × ℕ × ℕ)
  forbiddenVisits : List (ℕ × ℕ × ℕ)
  facilityVisitWindow : ℕ

/-- Default of the facility_visit_window parameter (model file line 47). -/
def modelDefaultFacilityVisitWindow : ℕ := 10

/-- The fixed bunching window T_bunching (model file line 426). -/
def tBunchingWindow : ℕ := 7

/-- Default of the lambda_bunching parameter (model file line 45). -/
def modelDefaultLambdaBunching : ℚ := 0

/-- Membership test for valid provider-facility pairs. -/
def ModelInst.pairValid (I : ModelInst) (p f : ℕ) : Bool :=
  decide ((p, f) ∈ I.validPairs)

/-- Embedding of the facilities_with_providers test (model file lines
316 and 400-403): facility f has some active provider assigned. -/
def ModelInst.hasProvider (I : ModelInst) (f : ℕ) : Bool :=
  I.activeProviders.any (fun p => I.pairValid p f)

/-- The per-facility adjusted requirement list of this instance. -/
def ModelInst.reqs (I : ModelInst) : List ℕ :=
  patientRequirements I.alpha I.patientCounts I.facilities

/-- Adjusted requirement of facility f (0 out of range). -/
def ModelInst.reqAt (I : ModelInst) (f : ℕ) : ℕ := I.reqs.getD f 0

/-- Values for every decision variable of one model build. -/
structure ModelAssign where
  x : ℕ → ℕ → ℕ → ℕ
  y : ℕ → ℕ → Bool
  z : ℕ → ℕ → ℕ → Bool
  w : ℕ → ℕ → ℕ → ℕ → Bool
  xMax : ℚ
  homeTravelVar : ℕ → ℕ → ℚ
  sGap : ℕ → ℕ → ℚ
  sBun : ℕ → ℕ → ℚ

/-- Assignment where every variable is zero. -/
def zeroAssign : ModelAssign where
  x := fun _ _ _ => 0
  y := fun _ _ => false
  z := fun _ _ _ => false
  w := fun _ _ _ _ => false
  xMax := 0
  homeTravelVar := fun _ _ => 0
  sGap := fun _ _ => 0
  sBun := fun _ _ => 0

/-- Sum of x over the valid facilities of provider p on day d, the
coefficient set of CONSTRAINTs 2, 3 and 6. -/
def validDaySum (I : ModelInst) (σ : ModelAssign) (p d : ℕ) : ℕ :=
  (((List.range I.facilities).filter (fun f => I.pairValid p f)).map
    (fun f => σ.x p f d)).sum

/-- Sum of x over active providers and horizon days with (p, f) valid,
the coefficient set of the aggregated demand constraint (model file
lines 317-323). -/
def demandSum (I : ModelInst) (σ : ModelAssign) (f : ℕ) : ℕ :=
  (I.activeProviders.map (fun p =>
    if I.pairValid p f then ((List.range I.totalDays).map (fun d => σ.x p f d)).sum
    else 0)).sum

/-- Number of active providers visiting facility f on day d. -/
def facilityDayVisits (I : ModelInst) (σ : ModelAssign) (f d : ℕ) : ℕ :=
  (I.activeProviders.map (fun p =>
    if I.pairValid p f then (σ.z p f d).toNat else 0)).sum

/-- Distinct day indices of the circular window of length T starting at
t (model file lines 416-417 and 445-446); deduplicated because a
repeated SetCoefficient call overwrites rather than adds. -/
def windowDays (totalDays t T : ℕ) : List ℕ :=
  ((List.range T).map (fun j => (t + j) % totalDays)).dedup

/-- Visits of facility f inside the circular window starting at t. -/
def windowVisitSum (I : ModelInst) (σ : ModelAssign) (f t T : ℕ) : ℕ :=
  ((windowDays I.totalDays t T).map (fun d => facilityDayVisits I σ f d)).sum

/-- Variable bounds of x (model file lines 238-244): up to
max_patients_per_day on valid pairs, pinned to zero otherwise. -/
def xBounds (I : ModelInst) (σ : ModelAssign) : Prop :=
  ∀ p ∈ I.activeProviders, ∀ f < I.facilities, ∀ d < I.totalDays,
    (I.pairValid p f = true → σ.x p f d ≤ I.maxPatientsPerDay) ∧
    (I.pairValid p f = false → σ.x p f d = 0)

/-- CONSTRAINT 1, aggregated branch (model file lines 314-323): demand
equality for facilities with providers and positive requirement. -/
def demandCons (I : ModelInst) (σ : ModelAssign) : Prop :=
  ∀ f < I.facilities, I.hasProvider f = true → 0 < I.reqAt f →
    demandSum I σ f = I.reqAt f

/-- CONSTRAINT 2 (model file lines 326-331): daily capacity. -/
def dailyCapCons (I : ModelInst) (σ : ModelAssign) : Prop :=
  ∀ p ∈ I.activeProviders, ∀ d < I.totalDays,
    validDaySum I σ p d ≤ I.maxPatientsPerDay

/-- CONSTRAINT 3 (model file lines 334-340): work-day link. -/
def workLinkCons (I : ModelInst) (σ : ModelAssign) : Prop :=
  ∀ p ∈ I.activeProviders, ∀ d < I.totalDays,
    validDaySum I σ p d ≤ I.maxPatientsPerDay * (σ.y p d).toNat

/-- CONSTRAINT 4 (model file lines 343-356): visit link on valid pairs,
x and z pinned to zero on invalid pairs. -/
def visitLinkCons (I : ModelInst) (σ : ModelAssign) : Prop :=
  ∀ p ∈ I.activeProviders, ∀ f < I.facilities, ∀ d < I.totalDays,
    (I.pairValid p f = true → σ.x p f d ≤ I.maxPatientsPerDay * (σ.z p f d).toNat) ∧
    (I.pairValid p f = false → σ.x p f d = 0 ∧ σ.z p f d = false)

/-- CONSTRAINT 5 (model file lines 360-364): availability. -/
def availabilityCons (I : ModelInst) (σ : ModelAssign) : Prop :=
  ∀ p ∈ I.activeProviders, ∀ d < I.totalDays,
    I.availability p d = false → σ.y p d = false

/-- CONSTRAINT 6 (model file lines 367-373) and the x_max bound. -/
def workloadCons (I : ModelInst) (σ : ModelAssign) : Prop :=
  0 ≤ σ.xMax ∧
  ∀ p ∈ I.activeProviders, ∀ d < I.totalDays,
    (validDaySum I σ p d : ℚ) ≤ σ.xMax

/-- CONSTRAINT 7 (model file lines 377-391): home travel surrogate. -/
def homeTravelCons (I : ModelInst) (σ : ModelAssign) : Prop :=
  ∀ p ∈ I.activeProviders, ∀ d < I.totalDays,
    0 ≤ σ.homeTravelVar p d ∧
    (((List.range I.facilities).filter (fun f => I.pairValid p f)) = [] →
      σ.homeTravelVar p d = 0) ∧
    (∀ f < I.facilities, I.pairValid p f = true → 0 < I.homeTime p f →
      I.homeTime p f * ((σ.z p f d).toNat : ℚ) ≤ σ.homeTravelVar p d)

/-- Nonnegativity of the slack variables (model file lines 404-405 and
433-434), created only for facilities with providers. -/
def slackCons (I : ModelInst) (σ : ModelAssign) : Prop :=
  ∀ f < I.facilities, I.hasProvider f = true → ∀ t < I.totalDays,
    0 ≤ σ.sGap f t ∧ 0 ≤ σ.sBun f t

/-- CONSTRAINT 8 (model file lines 408-423): sparse-visit windows. -/
def gapCons (I : ModelInst) (σ : ModelAssign) : Prop :=
  ∀ f < I.facilities, I.hasProvider f = true → ∀ t < I.totalDays,
    1 ≤ (windowVisitSum I σ f t I.facilityVisitWindow : ℚ) + σ.sGap f t

/-- CONSTRAINT 10 (model file lines 437-450): bunching windows. -/
def bunchingCons (I : ModelInst) (σ : ModelAssign) : Prop :=
  ∀ f < I.facilities, I.hasProvider f = true → ∀ t < I.totalDays,
    (windowVisitSum I σ f t tBunchingWindow : ℚ) - σ.sBun f t ≤ 1

/-- Guard under which the builder applies a required or forbidden visit
(model file lines 457 and 469). -/
def tripleApplies (I : ModelInst) (p f d : ℕ) : Prop :=
  p ∈ I.activeProviders ∧ I.pairValid p f = true ∧ d < I.totalDays

/-- CONSTRAINT 9 (model file lines 453-464): required visits, applied
only when the guard holds. -/
def requiredCons (I : ModelInst) (σ : ModelAssign) : Prop :=
  ∀ t ∈ I.requiredVisits, tripleApplies I t.1 t.2.1 t.2.2 →
    1 ≤ σ.x t.1 t.2.1 t.2.2 ∧ σ.x t.1 t.2.1 t.2.2 ≤ I.maxPatientsPerDay

/-- Forbidden visits (model file lines 466-471), applied only when the
guard holds. -/
def forbiddenCons (I : ModelInst) (σ : ModelAssign) : Prop :=
  ∀ t ∈ I.forbiddenVisits, tripleApplies I t.1 t.2.1 t.2.2 →
    σ.z t.1 t.2.1 t.2.2 = false

/-- First linearization constraint on w (model file lines 512-515). -/
def pairLinCons1 (I : ModelInst) (σ : ModelAssign) : Prop :=
  ∀ p ∈ I.activeProviders, ∀ f1 < I.facilities, ∀ f2 < I.facilities,
    ∀ d < I.totalDays, f1 ≠ f2 →
    I.pairValid p f1 = true → I.pairValid p f2 = true →
    (σ.w p f1 f2 d).toNat ≤ (σ.z p f1 d).toNat

/-- Second linearization constraint on w (model file lines 517-520). -/
def pairLinCons2 (I : ModelInst) (σ : ModelAssign) : Prop :=
  ∀ p ∈ I.activeProviders, ∀ f1 < I.facilities, ∀ f2 < I.facilities,
    ∀ d < I.totalDays, f1 ≠ f2 →
    I.pairValid p f1 = true → I.pairValid p f2 = true →
    (σ.w p f1 f2 d).toNat ≤ (σ.z p f2 d).toNat

/-- Third linearization constraint on w (model file lines 522-526). -/
def pairLinCons3 (I : ModelInst) (σ : ModelAssign) : Prop :=
  ∀ p ∈ I.activeProviders, ∀ f1 < I.facilities, ∀ f2 < I.facilities,
    ∀ d < I.totalDays, f1 ≠ f2 →
    I.pairValid p f1 = true → I.pairValid p f2 = true →
    (σ.z p f1 d).toNat + (σ.z p f2 d).toNat ≤ (σ.w p f1 f2 d).toNat + 1

/-- Linearization constraints on w (model file lines 507-526). -/
def pairLinCons (I : ModelInst) (σ : ModelAssign) : Prop :=
  pairLinCons1 I σ ∧ pairLinCons2 I σ ∧ pairLinCons3 I σ

/-- The assignment satisfies every constraint the builder emits. -/
def satisfiesModel (I : ModelInst) (σ : ModelAssign) : Prop :=
  xBounds I σ ∧ demandCons I σ ∧ dailyCapCons I σ ∧ workLinkCons I σ ∧
  visitLinkCons I σ ∧ availabilityCons I σ ∧ workloadCons I σ ∧
  homeTravelCons I σ ∧ slackCons I σ ∧ gapCons I σ ∧ bunchingCons I σ ∧
  requiredCons I σ ∧ forbiddenCons I σ ∧ pairLinCons I σ

instance (I : ModelInst) (σ : ModelAssign) : Decidable (xBounds I σ) := by
  unfold xBounds; infer_instance

instance (I : ModelInst) (σ : ModelAssign) : Decidable (demandCons I σ) := by
  unfold demandCons; infer_instance

instance (I : ModelInst) (σ : ModelAssign) : Decidable (dailyCapCons I σ) := by
  unfold dailyCapCons; infer_instance

instance (I : ModelInst) (σ : ModelAssign) : Decidable (workLinkCons I σ) := by
  unfold workLinkCons; infer_instance

instance (I : ModelInst) (σ : ModelAssign) : Decidable (visitLinkCons I σ) := by
  unfold visitLinkCons; infer_instance

instance (I : ModelInst) (σ : ModelAssign) : Decidable (availabilityCons I σ) := by
  unfold availabilityCons; infer_instance

instance (I : ModelInst) (σ : ModelAssign) : Decidable (workloadCons I σ) := by
  unfold workloadCons; infer_instance

instance (I : ModelInst) (σ : ModelAssign) : Decidable (homeTravelCons I σ) := by
  unfold homeTravelCons; infer_instance

instance (I : ModelInst) (σ : ModelAssign) : Decidable (slackCons I σ) := by
  unfold slackCons; infer_instance

instance (I : ModelInst) (σ : ModelAssign) : Decidable (gapCons I σ) := by
  unfold gapCons; infer_instance

instance (I : ModelInst) (σ : ModelAssign) : Decidable (bunchingCons I σ) := by
  unfold bunchingCons; infer_instance

instance (I : ModelInst) (p f d : ℕ) : Decidable (tripleApplies I p f d) := by
  unfold tripleApplies; infer_instance

instance (I : ModelInst) (σ : ModelAssign) : Decidable (requiredCons I σ) := by
  unfold requiredCons; infer_instance

instance (I : ModelInst) (σ : ModelAssign) : Decidable (forbiddenCons I σ) := by
  unfold forbiddenCons; infer_instance

instance (I : ModelInst) (σ : ModelAssign) : Decidable (pairLinCons1 I σ) := by
  unfold pairLinCons1; infer_instance

instance (I : ModelInst) (σ : ModelAssign) : Decidable (pairLinCons2 I σ) := by
  unfold pairLinCons2; infer_instance

instance (I : ModelInst) (σ : ModelAssign) : Decidable (pairLinCons3 I σ) := by
  unfold pairLinCons3; infer_instance

instance (I : ModelInst) (σ : ModelAssign) : Decidable (pairLinCons I σ) := by
  unfold pairLinCons; infer_instance

instance (I : ModelInst) (σ : ModelAssign) : Decidable (satisfiesModel I σ) := by
  unfold satisfiesModel; infer_instance

/-- Total patients assigned to facility f over all active providers and
all horizon days, as the demand-coverage claim phrases it (no
restriction to valid pairs). -/
def totalAssigned (I : ModelInst) (σ : ModelAssign) (f : ℕ) : ℕ :=
  (I.activeProviders.map (fun p =>
    ((List.range I.totalDays).map (fun d => σ.x p f d)).sum)).sum

theorem totalAssigned_eq_demandSum (I : ModelInst) (σ : ModelAssign)
    (hx : xBounds I σ) (f : ℕ) (hf : f < I.facilities) :
    totalAssigned I σ f = demandSum I σ f := by
  unfold totalAssigned demandSum
  congr 1
  apply List.map_congr_left
  intro p hp
  by_cases hv : I.pairValid p f = true
  · simp [hv]
  · have hv' : I.pairValid p f = false := by
      cases h : I.pairValid p f
      · rfl
      · exact absurd h hv
    simp only [hv', if_false]
    apply List.sum_eq_zero
    intro a ha
    simp only [List.mem_map, List.mem_range] at ha
    obtain ⟨d, hd, rfl⟩ := ha
    exact (hx p hp f hf d hd).2 hv'

/-- Window day lists have no repetition once the window fits in the
horizon, so the deduplicated coefficient set is the plain mod-D image. -/
theorem windowDays_eq_map (D t T : ℕ) (hT : T ≤ D) :
    windowDays D t T = (List.range T).map (fun j => (t + j) % D) := by
  rw [windowDays, List.dedup_eq_self]
  rcases Nat.eq_zero_or_pos D with hD | hD
  · have : T = 0 := by omega
    subst this
    simp
  · apply (List.nodup_range T).map_on
    intro j1 h1 j2 h2 heq
    have hmod : j1 % D = j2 % D :=
      (Nat.ModEq.refl t).add_left_cancel heq
    rw [List.mem_range] at h1 h2
    rwa [Nat.mod_eq_of_lt (by omega), Nat.mod_eq_of_lt (by omega)] at hmod

theorem windowVisitSum_eq (I : ModelInst) (σ : ModelAssign) (f t T : ℕ)
    (hT : T ≤ I.totalDays) :
    windowVisitSum I σ f t T =
      ((List.range T).map (fun j => facilityDayVisits I σ f ((t + j) % I.totalDays))).sum := by
  rw [windowVisitSum, windowDays_eq_map _ _ _ hT, List.map_map]
  rfl

theorem windowDays_length (D t T : ℕ) (hT : T ≤ D) :
    (windowDays D t T).length = T := by
  rw [windowDays_eq_map _ _ _ hT, List.length_map, List.length_range]


/-- Helper: with no valid pairs at all, every constraint the builder
emits is either vacuous or zero, so the all-zero assignment satisfies
the model. -/
theorem satisfiesModel_zero_of_noPairs (I : ModelInst)
    (hpairs : I.validPairs = []) : satisfiesModel I zeroAssign := by
  have hpv : ∀ p f, I.pairValid p f = false := by
    intro p f
    simp [ModelInst.pairValid, hpairs]
  have hhp : ∀ f, I.hasProvider f = false := by
    intro f
    simp [ModelInst.hasProvider, hpv]
  have hvds : ∀ p d, validDaySum I zeroAssign p d = 0 := by
    intro p d
    simp [validDaySum, hpv]
  refine ⟨?_, ?_, ?_, ?_, ?_, ?_, ?_, ?_, ?_, ?_, ?_, ?_, ?_, ?_⟩
  · intro p hp f hf d hd
    exact ⟨fun h => by simp [hpv] at h, fun _ => rfl⟩
  · intro f hf hp
    rw [hhp] at hp
    simp at hp
  · intro p hp d hd
    rw [hvds]
    exact Nat.zero_le _
  · intro p hp d hd
    rw [hvds]
    exact Nat.zero_le _
  · intro p hp f hf d hd
    exact ⟨fun h => by simp [hpv] at h, fun _ => ⟨rfl, rfl⟩⟩
  · intro p hp d hd h
    rfl
  · exact ⟨le_refl 0, fun p hp d hd => by rw [hvds]; simp [zeroAssign]⟩
  · intro p hp d hd
    exact ⟨le_refl 0, fun _ => rfl, fun f hf hv => by simp [hpv] at hv⟩
  · intro f hf hp
    rw [hhp] at hp
    simp at hp
  · intro f hf hp
    rw [hhp] at hp
    simp at hp
  · intro f hf hp
    rw [hhp] at hp
    simp at hp
  · intro v hv happ
    obtain ⟨-, hpf, -⟩ := happ
    simp [hpv] at hpf
  · intro v hv happ
    obtain ⟨-, hpf, -⟩ := happ
    simp [hpv] at hpf
  · refine ⟨?_, ?_, ?_⟩ <;>
      · intro p hp f1 h1 f2 h2 d hd hne hv1 hv2
        simp [hpv] at hv1

theorem adjustedRequirement_zero_one : adjustedRequirement 0 1 = 1 := by
  have h1 : (1 : ℚ) * (1 + 0) = ((1 : ℤ) : ℚ) := by norm_num
  rw [adjustedRequirement, h1, pyRound_intCast]
  rfl

theorem patientRequirements_one : patientRequirements 0 [1] 1 = [1] := by
  simp [patientRequirements, adjustedRequirement_zero_one]

/-! ## Claim C2: demand coverage -/

/-- Instance refuting claim C2 as stated: one facility with adjusted
requirement 1 but no assigned provider, so the builder (model file line
318) skips the demand equality for it. -/
def c2CexInst : ModelInst where
  facilities := 1
  totalDays := 1
  maxPatientsPerDay := 20
  activeProviders := [0]
  validPairs := []
  alpha := 0
  patientCounts := [1]
  homeTime := fun _ _ => 0
  ffTime := fun _ _ => 0
  availability := fun _ _ => true
  requiredVisits := []
  forbiddenVisits := []
  facilityVisitWindow := 10

theorem c2CexInst_reqAt : c2CexInst.reqAt 0 = 1 := by
  simp [ModelInst.reqAt, ModelInst.reqs, c2CexInst, patientRequirements_one]

/-- C2 counterexample: the all-zero assignment satisfies every
constraint of c2CexInst although facility 0 has positive adjusted
requirement and receives zero patients, so the claimed equality fails
for a positive-requirement facility without an assigned provider. -/
theorem c2_counterexample :
    satisfiesModel c2CexInst zeroAssign ∧ 0 < c2CexInst.reqAt 0 ∧
    totalAssigned c2CexInst zeroAssign 0 ≠ c2CexInst.reqAt 0 := by
  refine ⟨satisfiesModel_zero_of_noPairs c2CexInst rfl, ?_, ?_⟩
  · rw [c2CexInst_reqAt]
    norm_num
  · rw [c2CexInst_reqAt]
    have h : totalAssigned c2CexInst zeroAssign 0 = 0 := by decide
    rw [h]
    norm_num

/-- C2 (amended): in any assignment satisfying the built model, every
facility with positive adjusted requirement round(census * (1 + alpha))
that also has at least one assigned active provider receives exactly
its requirement, summed over all active providers and all horizon
days - never more and never less. -/
theorem c2_demand_coverage_equality (I : ModelInst) (σ : ModelAssign)
    (hsat : satisfiesModel I σ) (f : ℕ) (hf : f < I.facilities)
    (hprov : I.hasProvider f = true) (hpos : 0 < I.reqAt f) :
    totalAssigned I σ f = I.reqAt f := by
  obtain ⟨hx, hdem, -⟩ := hsat
  rw [totalAssigned_eq_demandSum I σ hx f hf]
  exact hdem f hf hprov hpos

/-- Instance with one valid pair and adjusted requirement 1. -/
def c2WitInst : ModelInst where
  facilities := 1
  totalDays := 1
  maxPatientsPerDay := 20
  activeProviders := [0]
  validPairs := [(0, 0)]
  alpha := 0
  patientCounts := [1]
  homeTime := fun _ _ => 0
  ffTime := fun _ _ => 0
  availability := fun _ _ => true
  requiredVisits := []
  forbiddenVisits := []
  facilityVisitWindow := 10

/-- Assignment serving one patient at every (p, f, d). -/
def oneVisitAssign : ModelAssign where
  x := fun _ _ _ => 1
  y := fun _ _ => true
  z := fun _ _ _ => true
  w := fun _ _ _ _ => true
  xMax := 1
  homeTravelVar := fun _ _ => 0
  sGap := fun _ _ => 0
  sBun := fun _ _ => 0

theorem c2WitInst_reqAt : c2WitInst.reqAt 0 = 1 := by
  simp [ModelInst.reqAt, ModelInst.reqs, c2WitInst, patientRequirements_one]

theorem satisfies_c2Wit : satisfiesModel c2WitInst oneVisitAssign := by
  refine ⟨by decide, ?_, by decide, by decide, by decide, by decide, ?_, ?_,
    ?_, ?_, ?_, by decide, by decide, by decide⟩
  · intro f hf hp hpos
    simp only [c2WitInst] at hf
    have hf0 : f = 0 := by omega
    subst hf0
    rw [c2WitInst_reqAt]
    decide
  · refine ⟨by norm_num [oneVisitAssign], ?_⟩
    intro p hp d hd
    simp only [c2WitInst] at hp hd
    have hp0 : p = 0 := by simpa using hp
    have hd0 : d = 0 := by omega
    subst hp0
    subst hd0
    have hv : validDaySum c2WitInst oneVisitAssign 0 0 = 1 := by decide
    rw [hv]
    norm_num [oneVisitAssign]
  · intro p hp d hd
    refine ⟨by norm_num [oneVisitAssign], fun _ => rfl, ?_⟩
    intro f hf hpv habs
    norm_num [c2WitInst] at habs
  · intro f hf hp t ht
    constructor <;> norm_num [oneVisitAssign]
  · intro f hf hp t ht
    simp only [c2WitInst] at hf ht
    have hf0 : f = 0 := by omega
    have ht0 : t = 0 := by omega
    subst hf0
    subst ht0
    have hw : windowVisitSum c2WitInst oneVisitAssign 0 0
        c2WitInst.facilityVisitWindow = 1 := by decide
    rw [hw]
    norm_num [oneVisitAssign]
  · intro f hf hp t ht
    simp only [c2WitInst] at hf ht
    have hf0 : f = 0 := by omega
    have ht0 : t = 0 := by omega
    subst hf0
    subst ht0
    have hw : windowVisitSum c2WitInst oneVisitAssign 0 0 tBunchingWindow = 1 := by
      decide
    rw [hw]
    norm_num [oneVisitAssign]

theorem c2_witness :
    totalAssigned c2WitInst oneVisitAssign 0 = c2WitInst.reqAt 0 :=
  c2_demand_coverage_equality c2WitInst oneVisitAssign satisfies_c2Wit 0
    (by decide) (by decide) (by rw [c2WitInst_reqAt]; norm_num)

/-! ## Claim C3: required and forbidden visits -/

/-- Instance refuting claim C3 as stated: the supplied required triple
(0, 0, 0) is not a valid pair, so the builder (model file lines
456-464) skips its constraint with only a printed warning. -/
def c3CexInst : ModelInst where
  facilities := 1
  totalDays := 1
  maxPatientsPerDay := 20
  activeProviders := [0]
  validPairs := []
  alpha := 0
  patientCounts := [0]
  homeTime := fun _ _ => 0
  ffTime := fun _ _ => 0
  availability := fun _ _ => true
  requiredVisits := [(0, 0, 0)]
  forbiddenVisits := []
  facilityVisitWindow := 10

/-- C3 counterexample: the all-zero assignment satisfies every
constraint of c3CexInst although the supplied required triple receives
no patient, so the claim as stated fails for a supplied required triple
outside the applicability guard of model file line 457. -/
theorem c3_counterexample :
    satisfiesModel c3CexInst zeroAssign ∧
    (0, 0, 0) ∈ c3CexInst.requiredVisits ∧
    ¬ 1 ≤ zeroAssign.x 0 0 0 := by
  exact ⟨satisfiesModel_zero_of_noPairs c3CexInst rfl, by decide, by decide⟩

/-- C3 (amended): for every supplied required triple that passes the
applicability guard of the builder (active provider, valid pair, day in
horizon), any satisfying assignment has x at least 1 and, through the
visit-link constraint x at most M times z, also z equal to 1; for every
supplied forbidden triple passing the same guard, z equals 0.  The
hypothesis hwf records that every valid pair names a facility index
below the facility count, which holds for catalog-derived pairs. -/
theorem c3_required_forbidden (I : ModelInst) (σ : ModelAssign)
    (hsat : satisfiesModel I σ)
    (hwf : ∀ pr ∈ I.validPairs, pr.2 < I.facilities) :
    (∀ v ∈ I.requiredVisits, tripleApplies I v.1 v.2.1 v.2.2 →
      1 ≤ σ.x v.1 v.2.1 v.2.2 ∧ σ.z v.1 v.2.1 v.2.2 = true) ∧
    (∀ v ∈ I.forbiddenVisits, tripleApplies I v.1 v.2.1 v.2.2 →
      σ.z v.1 v.2.1 v.2.2 = false) := by
  obtain ⟨hx, hdem, hcap, hwl, hvl, havail, hwork, hhome, hslack, hgap,
    hbun, hreq, hforb, hpl⟩ := hsat
  constructor
  · intro v hv happ
    have hx1 := (hreq v hv happ).1
    obtain ⟨hp, hpf, hd⟩ := happ
    have hmem : (v.1, v.2.1) ∈ I.validPairs := by
      have h' := hpf
      unfold ModelInst.pairValid at h'
      exact of_decide_eq_true h'
    have hfF : v.2.1 < I.facilities := hwf _ hmem
    refine ⟨hx1, ?_⟩
    have hlink := (hvl v.1 hp v.2.1 hfF v.2.2 hd).1 hpf
    cases hz : σ.z v.1 v.2.1 v.2.2
    · rw [hz] at hlink
      simp at hlink
      omega
    · rfl
  · intro v hv happ
    exact hforb v hv happ

/-- Instance with a valid required triple served by oneVisitAssign. -/
def c3WitInst : ModelInst where
  facilities := 1
  totalDays := 1
  maxPatientsPerDay := 20
  activeProviders := [0]
  validPairs := [(0, 0)]
  alpha := 0
  patientCounts := [1]
  homeTime := fun _ _ => 0
  ffTime := fun _ _ => 0
  availability := fun _ _ => true
  requiredVisits := [(0, 0, 0)]
  forbiddenVisits := []
  facilityVisitWindow := 10

theorem c3WitInst_reqAt : c3WitInst.reqAt 0 = 1 := by
  simp [ModelInst.reqAt, ModelInst.reqs, c3WitInst, patientRequirements_one]

theorem satisfies_c3Wit : satisfiesModel c3WitInst oneVisitAssign := by
  refine ⟨by decide, ?_, by decide, by decide, by decide, by decide, ?_, ?_,
    ?_, ?_, ?_, by decide, by decide, by decide⟩
  · intro f hf hp hpos
    simp only [c3WitInst] at hf
    have hf0 : f = 0 := by omega
    subst hf0
    rw [c3WitInst_reqAt]
    decide
  · refine ⟨by norm_num [oneVisitAssign], ?_⟩
    intro p hp d hd
    simp only [c3WitInst] at hp hd
    have hp0 : p = 0 := by simpa using hp
    have hd0 : d = 0 := by omega
    subst hp0
    subst hd0
    have hv : validDaySum c3WitInst oneVisitAssign 0 0 = 1 := by decide
    rw [hv]
    norm_num [oneVisitAssign]
  · intro p hp d hd
    refine ⟨by norm_num [oneVisitAssign], fun _ => rfl, ?_⟩
    intro f hf hpv habs
    norm_num [c3WitInst] at habs
  · intro f hf hp t ht
    constructor <;> norm_num [oneVisitAssign]
  · intro f hf hp t ht
    simp only [c3WitInst] at hf ht
    have hf0 : f = 0 := by omega
    have ht0 : t = 0 := by omega
    subst hf0
    subst ht0
    have hw : windowVisitSum c3WitInst oneVisitAssign 0 0
        c3WitInst.facilityVisitWindow = 1 := by decide
    rw [hw]
    norm_num [oneVisitAssign]
  · intro f hf hp t ht
    simp only [c3WitInst] at hf ht
    have hf0 : f = 0 := by omega
    have ht0 : t = 0 := by omega
    subst hf0
    subst ht0
    have hw : windowVisitSum c3WitInst oneVisitAssign 0 0 tBunchingWindow = 1 := by
      decide
    rw [hw]
    norm_num [oneVisitAssign]

theorem c3_witness :
    1 ≤ oneVisitAssign.x 0 0 0 ∧ oneVisitAssign.z 0 0 0 = true :=
  ((c3_required_forbidden c3WitInst oneVisitAssign satisfies_c3Wit
    (by decide)).1) (0, 0, 0) (by decide) (by decide)

/-! ## Claim C5: circular soft spacing windows -/

/-- C5: for every facility with an assigned active provider and every
window start t below the horizon length D, a satisfying assignment
obeys the sparse-visit window constraint (sum of the z values over the
window days (t + j) mod D for j below T_gap, plus the gap slack, is at
least 1, with T_gap the facility_visit_window parameter defaulting to
10) and the bunching window constraint with T_bun = 7 (sum of z over
the window minus the bunching slack is at most 1); window indices wrap
modulo D and, with the windows fitting in the horizon, each of the D
windows per facility has full length. -/
theorem c5_circular_windows (I : ModelInst) (σ : ModelAssign)
    (hsat : satisfiesModel I σ)
    (hgapT : I.facilityVisitWindow ≤ I.totalDays)
    (hbunT : tBunchingWindow ≤ I.totalDays) :
    modelDefaultFacilityVisitWindow = 10 ∧ tBunchingWindow = 7 ∧
    ∀ f < I.facilities, I.hasProvider f = true → ∀ t < I.totalDays,
      (1 ≤ (((List.range I.facilityVisitWindow).map
          (fun j => facilityDayVisits I σ f ((t + j) % I.totalDays))).sum : ℚ)
            + σ.sGap f t) ∧
      ((((List.range tBunchingWindow).map
          (fun j => facilityDayVisits I σ f ((t + j) % I.totalDays))).sum : ℚ)
            - σ.sBun f t ≤ 1) ∧
      (windowDays I.totalDays t I.facilityVisitWindow).length =
        I.facilityVisitWindow ∧
      (windowDays I.totalDays t tBunchingWindow).length = tBunchingWindow := by
  obtain ⟨hx, hdem, hcap, hwl, hvl, havail, hwork, hhome, hslack, hgap,
    hbun, hreq, hforb, hpl⟩ := hsat
  refine ⟨rfl, rfl, ?_⟩
  intro f hf hp t ht
  refine ⟨?_, ?_, windowDays_length _ _ _ hgapT, windowDays_length _ _ _ hbunT⟩
  · have h := hgap f hf hp t ht
    rwa [windowVisitSum_eq I σ f t _ hgapT] at h
  · have h := hbun f hf hp t ht
    rwa [windowVisitSum_eq I σ f t _ hbunT] at h

/-- Instance over a ten-day horizon with one valid pair. -/
def c5WitInst : ModelInst where
  facilities := 1
  totalDays := 10
  maxPatientsPerDay := 20
  activeProviders := [0]
  validPairs := [(0, 0)]
  alpha := 0
  patientCounts := [1]
  homeTime := fun _ _ => 0
  ffTime := fun _ _ => 0
  availability := fun _ _ => true
  requiredVisits := []
  forbiddenVisits := []
  facilityVisitWindow := 10

/-- Assignment visiting facility 0 on day 0 only. -/
def c5WitAssign : ModelAssign where
  x := fun _ _ d => if d = 0 then 1 else 0
  y := fun _ d => decide (d = 0)
  z := fun _ _ d => decide (d = 0)
  w := fun _ _ _ _ => false
  xMax := 1
  homeTravelVar := fun _ _ => 0
  sGap := fun _ _ => 0
  sBun := fun _ _ => 0

theorem c5WitInst_reqAt : c5WitInst.reqAt 0 = 1 := by
  simp [ModelInst.reqAt, ModelInst.reqs, c5WitInst, patientRequirements_one]

theorem satisfies_c5Wit : satisfiesModel c5WitInst c5WitAssign := by
  refine ⟨by decide, ?_, by decide, by decide, by decide, by decide, ?_, ?_,
    ?_, ?_, ?_, by decide, by decide, by decide⟩
  · intro f hf hp hpos
    simp only [c5WitInst] at hf
    have hf0 : f = 0 := by omega
    subst hf0
    rw [c5WitInst_reqAt]
    decide
  · refine ⟨by norm_num [c5WitAssign], ?_⟩
    intro p hp d hd
    simp only [c5WitInst] at hp hd
    have hp0 : p = 0 := by simpa using hp
    subst hp0
    have hb : validDaySum c5WitInst c5WitAssign 0 d ≤ 1 := by
      interval_cases d <;> decide
    have hcast : ((validDaySum c5WitInst c5WitAssign 0 d : ℕ) : ℚ) ≤ 1 := by
      exact_mod_cast hb
    have hxm : c5WitAssign.xMax = 1 := rfl
    rw [hxm]
    exact hcast
  · intro p hp d hd
    refine ⟨by norm_num [c5WitAssign], fun _ => rfl, ?_⟩
    intro f hf hpv habs
    norm_num [c5WitInst] at habs
  · intro f hf hp t ht
    constructor <;> norm_num [c5WitAssign]
  · intro f hf hp t ht
    simp only [c5WitInst] at hf ht
    have hf0 : f = 0 := by omega
    subst hf0
    have hw : windowVisitSum c5WitInst c5WitAssign 0 t
        c5WitInst.facilityVisitWindow = 1 := by
      interval_cases t <;> decide
    rw [hw]
    norm_num [c5WitAssign]
  · intro f hf hp t ht
    simp only [c5WitInst] at hf ht
    have hf0 : f = 0 := by omega
    subst hf0
    have hw : windowVisitSum c5WitInst c5WitAssign 0 t tBunchingWindow ≤ 1 := by
      interval_cases t <;> decide
    have hcast : ((windowVisitSum c5WitInst c5WitAssign 0 t tBunchingWindow : ℕ) : ℚ)
        ≤ 1 := by exact_mod_cast hw
    have hsb : c5WitAssign.sBun 0 t = 0 := rfl
    rw [hsb]
    linarith

theorem c5_witness :
    1 ≤ (((List.range c5WitInst.facilityVisitWindow).map
        (fun j => facilityDayVisits c5WitInst c5WitAssign 0
          ((0 + j) % c5WitInst.totalDays))).sum : ℚ)
      + c5WitAssign.sGap 0 0 :=
  (((c5_circular_windows c5WitInst c5WitAssign satisfies_c5Wit (by decide)
      (by decide)).2.2) 0 (by decide) (by decide) 0 (by decide)).1

/-! ## Claim C7: horizon construction -/

/-- C7: for every start date (as a serial day number, any start
accepted) and week count, the horizon is exactly the Monday-to-Friday
days of the half-open range [start, start + 7 * weeks), in strictly
increasing order, and a Monday start yields exactly 5 * weeks days. -/
theorem c7_horizon (start weeks : ℕ) :
    (∀ n, n ∈ workingDaysList start weeks ↔
      start ≤ n ∧ n < start + 7 * weeks ∧ pyWeekday n < 5) ∧
    List.Pairwise (fun a b => a < b) (workingDaysList start weeks) ∧
    (pyWeekday start = 0 → (workingDaysList start weeks).length = 5 * weeks) :=
  ⟨mem_workingDaysList start weeks, workingDaysList_sorted start weeks,
    workingDaysList_length_monday start weeks⟩

theorem c7_witness : (workingDaysList 0 4).length = 5 * 4 :=
  (c7_horizon 0 4).2.2 rfl

/-! ## Claim C4: solve outcome taxonomy

Source: model file line 229 (time limit) and lines 583-601 (status
handling); the schedule is attached only under solution_found (lines
603-705) and the message only in the three failure branches. -/

/-- Solver statuses distinguished by the result handling. -/
inductive OrtoolsStatus where
  | optimal
  | feasible
  | infeasible
  | unbounded
  | other (code : ℕ)
deriving DecidableEq

/-- The wall-clock limit passed to the solver, in milliseconds (model
file line 229: 15 * 1000). -/
def solverTimeLimitMs : ℕ := 15 * 1000

/-- The parts of the results dictionary that claim C4 is about. -/
structure SolveResults (α : Type) where
  status : String
  message : Option String
  schedule : Option α

/-- Embedding of the status dispatch of model file lines 583-601
together with the schedule attachment of lines 603-705: the schedule is
extracted exactly when solution_found was set. -/
def statusResults {α : Type} (st : OrtoolsStatus) (sched : α) : SolveResults α :=
  match st with
  | .optimal => ⟨"Optimal", none, some sched⟩
  | .feasible => ⟨"Feasible (Time Limit)", none, some sched⟩
  | .infeasible =>
      ⟨"Infeasible",
       some "OR-Tools model is infeasible with current real data constraints",
       none⟩
  | .unbounded => ⟨"Unbounded", some "OR-Tools model is unbounded", none⟩
  | .other c =>
      ⟨"Error",
       some ("OR-Tools optimization failed with status: " ++ toString c),
       none⟩

/-- C4: the solver limit is 15000 ms, and exactly the optimal and
feasible-at-limit statuses yield a result carrying a schedule, while
every other status yields a message and no schedule: a solve result
carries a schedule exactly when it carries no error message. -/
theorem c4_solve_outcomes :
    solverTimeLimitMs = 15000 ∧
    ∀ (α : Type) (st : OrtoolsStatus) (sched : α),
      ((statusResults st sched).schedule.isSome ↔
        (st = .optimal ∨ st = .feasible)) ∧
      ((statusResults st sched).schedule.isSome ↔
        (statusResults st sched).message.isNone) := by
  refine ⟨rfl, ?_⟩
  intro α st sched
  cases st <;> simp [statusResults]

/-! ## Claim C9: default penalty weights

Source: app.py lines 314-320 (parameter extraction of
run_optimization_endpoint) and lines 357-372 and 468-483 (the model
calls, which pass lambda_param and lambda_facility but never
lambda_bunching, so the model signature default of line 45 applies);
model file lines 477-562 (objective terms). -/

/-- The optional weight fields of the run_optimization request body. -/
structure OptimizationRequest where
  lambda_param : Option ℚ
  lambda_facility : Option ℚ
  lambda_bunching : Option ℚ
  alpha : Option ℚ
  facility_visit_window : Option ℕ
  max_patients_per_day : Option ℕ

/-- Embedding of app.py line 317: lambda_param defaults to 0. -/
def endpointLambdaParam (r : OptimizationRequest) : ℚ :=
  r.lambda_param.getD 0

/-- Embedding of app.py line 318: lambda_facility defaults to 0.1. -/
def endpointLambdaFacility (r : OptimizationRequest) : ℚ :=
  r.lambda_facility.getD (1/10)

/-- The endpoint never reads lambda_bunching from the request and its
model calls pass no lambda_bunching argument, so the weight the model
uses is the signature default 0.0 (model file line 45) whatever the
payload holds. -/
def effectiveLambdaBunching (_ : OptimizationRequest) : ℚ :=
  modelDefaultLambdaBunching

/-- A payload omitting every optional field. -/
def emptyRequest : OptimizationRequest :=
  ⟨none, none, none, none, none, none⟩

/-- Embedding of T_bar (model file lines 478-483): 0.025 when total
adjusted demand is positive, else the 0.01 fallback. -/
def tBar (I : ModelInst) : ℚ :=
  if 0 < totalRealDemand I.alpha I.patientCounts I.facilities then 1/40 else 1/100

/-- Objective term 1 (model file lines 489-491): home travel. -/
def objHomeTravel (I : ModelInst) (σ : ModelAssign) : ℚ :=
  (I.activeProviders.map (fun p =>
    ((List.range I.totalDays).map (fun d => σ.homeTravelVar p d)).sum)).sum

/-- Objective term 2 (model file lines 528-538): pairwise
facility-to-facility travel on the linearization variables; a
coefficient is set only when the travel time is positive. -/
def objPairTravel (I : ModelInst) (σ : ModelAssign) : ℚ :=
  (I.activeProviders.map (fun p =>
    ((List.range I.facilities).map (fun f1 =>
      ((List.range I.facilities).map (fun f2 =>
        ((List.range I.totalDays).map (fun d =>
          if f1 ≠ f2 ∧ I.pairValid p f1 = true ∧ I.pairValid p f2 = true ∧
              0 < I.ffTime f1 f2
          then I.ffTime f1 f2 * ((σ.w p f1 f2 d).toNat : ℚ)
          else 0)).sum)).sum)).sum)).sum

/-- Objective term 4 (model file lines 544-550): gap slack sum over
facilities with providers. -/
def objGapSlack (I : ModelInst) (σ : ModelAssign) : ℚ :=
  ((List.range I.facilities).map (fun f =>
    if I.hasProvider f = true
    then ((List.range I.totalDays).map (fun t => σ.sGap f t)).sum
    else 0)).sum

/-- Objective term 5 (model file lines 552-559): bunching slack sum. -/
def objBunSlack (I : ModelInst) (σ : ModelAssign) : ℚ :=
  ((List.range I.facilities).map (fun f =>
    if I.hasProvider f = true
    then ((List.range I.totalDays).map (fun t => σ.sBun f t)).sum
    else 0)).sum

/-- Embedding of the minimized objective (model file lines 486-562)
with the three weights explicit. -/
def objective (I : ModelInst) (σ : ModelAssign) (lp lf lb : ℚ) : ℚ :=
  objHomeTravel I σ + objPairTravel I σ + lp * tBar I * σ.xMax +
  lf * objGapSlack I σ + lb * objBunSlack I σ

/-- C9 counterexample: on a payload omitting every optional field, the
weight actually applied to the bunching slack term is the model default
0, not the claimed 0.1. -/
theorem c9_counterexample :
    effectiveLambdaBunching emptyRequest = 0 ∧
    ¬ effectiveLambdaBunching emptyRequest = 1/10 := by
  constructor
  · rfl
  · rw [effectiveLambdaBunching, modelDefaultLambdaBunching]
    norm_num

/-- C9 (amended): when the payload omits them, lambda_param defaults to
0 and lambda_facility to 0.1, while lambda_bunching is never read from
the payload and stays at the model default 0.0; the three weights
scale, respectively, the workload term tBar * x_max, the gap slack sum,
and the bunching slack sum of the built objective. -/
theorem c9_default_weights (I : ModelInst) (σ : ModelAssign)
    (r : OptimizationRequest)
    (hp : r.lambda_param = none) (hf : r.lambda_facility = none) :
    endpointLambdaParam r = 0 ∧ endpointLambdaFacility r = 1/10 ∧
    effectiveLambdaBunching r = 0 ∧
    ∀ lp lf lb lp' lf' lb' : ℚ,
      (objective I σ lp lf lb - objective I σ lp' lf lb =
        (lp - lp') * tBar I * σ.xMax) ∧
      (objective I σ lp lf lb - objective I σ lp lf' lb =
        (lf - lf') * objGapSlack I σ) ∧
      (objective I σ lp lf lb - objective I σ lp lf lb' =
        (lb - lb') * objBunSlack I σ) := by
  refine ⟨?_, ?_, rfl, ?_⟩
  · rw [endpointLambdaParam, hp]
    rfl
  · rw [endpointLambdaFacility, hf]
    rfl
  · intro lp lf lb lp' lf' lb'
    refine ⟨?_, ?_, ?_⟩ <;> (unfold objective; ring)

theorem c9_witness :
    endpointLambdaParam emptyRequest = 0 ∧
    endpointLambdaFacility emptyRequest = 1/10 ∧
    effectiveLambdaBunching emptyRequest = 0 :=
  let h := c9_default_weights c2WitInst oneVisitAssign emptyRequest rfl rfl
  ⟨h.1, h.2.1, h.2.2.1⟩

/-! ## Claim C6: post-solve travel reporting

Source: src/utils/optimal_travel_calculator.py.  Facility ids are kept
abstract (the source uses strings); a distance matrix is a partial map
and get_travel_time yields 0 for a missing entry (lines 161-185). -/

/-- Embedding of get_travel_time (calculator lines 161-185): matrix
lookup with 0 for missing entries. -/
def getTravelTime {α : Type} (m : α → α → Option ℚ) (a b : α) : ℚ :=
  (m a b).getD 0

/-- One step of the step-1 loop of calculate_optimal_daily_travel
(calculator lines 55-59): starting from infinity, keep the first
facility that strictly improves the best travel time. -/
def closestAcc {α : Type} (look : α → ℚ) (acc : Option (ℚ × α)) (fac : α) :
    Option (ℚ × α) :=
  match acc with
  | none => some (look fac, fac)
  | some (best, bid) =>
      if look fac < best then some (look fac, fac) else some (best, bid)

/-- The whole step-1 scan: none plays the role of the infinite initial
value, so an empty list yields none (home travel 0). -/
def closestScan {α : Type} (look : α → ℚ) (l : List α) : Option (ℚ × α) :=
  l.foldl (closestAcc look) none

/-- Embedding of the nearest-remaining-facility selection inside the
step-2 loop (calculator lines 77-93): the first facility attaining the
minimum distance is chosen (strict improvement scan) and popped,
leaving the rest in order. -/
def pickNearest {α : Type} (look : α → ℚ) : List α → Option (α × List α)
  | [] => none
  | x :: xs =>
    match pickNearest look xs with
    | none => some (x, xs)
    | some (y, ys) => if look x ≤ look y then some (x, xs) else some (y, x :: ys)

/-- The greedy nearest-neighbor accumulation of calculator lines 77-93,
with explicit fuel (the loop pops one facility per iteration). -/
def greedyTourAux {α : Type} (dist : α → α → ℚ) :
    ℕ → α → List α → ℚ
  | 0, _, _ => 0
  | fuel + 1, cur, remaining =>
    match pickNearest (dist cur) remaining with
    | none => 0
    | some (nxt, rest) => dist cur nxt + greedyTourAux dist fuel nxt rest

/-- Greedy tour through the remaining facilities, starting at the
facility closest to home. -/
def greedyTour {α : Type} (dist : α → α → ℚ) (cur : α) (remaining : List α) : ℚ :=
  greedyTourAux dist remaining.length cur remaining

/-- The travel breakdown returned by calculate_optimal_daily_travel
(calculator lines 99-104), rounded to two decimals. -/
structure TravelResult where
  homeTravel : ℚ
  facilityTravel : ℚ
  totalTravel : ℚ

/-- Embedding of calculate_optimal_daily_travel (calculator lines
22-104): minimum home travel to pick the closest facility, greedy
nearest-neighbor tour through the remaining ones, total the sum. -/
def calculateOptimalDailyTravel {α : Type} [DecidableEq α] (providerId : α)
    (pcpM ffM : α → α → Option ℚ) (facilities : List α) : TravelResult :=
  match closestScan (fun f => getTravelTime pcpM providerId f) facilities with
  | none => ⟨0, 0, 0⟩
  | some (h, closest) =>
    let remaining := facilities.filter (fun f => decide (f ≠ closest))
    let ft := greedyTour (getTravelTime ffM) closest remaining
    ⟨round2 h, round2 ft, round2 (h + ft)⟩

theorem foldl_closestAcc_some {α : Type} (look : α → ℚ) (l : List α) :
    ∀ (b : ℚ) (i : α), ∃ m c,
      l.foldl (closestAcc look) (some (b, i)) = some (m, c) ∧
      m ≤ b ∧ ((c = i ∧ m = b) ∨ (c ∈ l ∧ m = look c)) ∧
      ∀ f ∈ l, m ≤ look f := by
  induction l with
  | nil =>
    intro b i
    exact ⟨b, i, rfl, le_refl b, Or.inl ⟨rfl, rfl⟩, by simp⟩
  | cons x xs ih =>
    intro b i
    simp only [List.foldl_cons]
    by_cases hx : look x < b
    · have hstep : closestAcc look (some (b, i)) x = some (look x, x) := by
        simp [closestAcc, hx]
      rw [hstep]
      obtain ⟨m, c, heq, hle, hor, hall⟩ := ih (look x) x
      refine ⟨m, c, heq, by linarith, ?_, ?_⟩
      · rcases hor with ⟨rfl, rfl⟩ | ⟨hc, hm⟩
        · exact Or.inr ⟨List.mem_cons_self _ _, rfl⟩
        · exact Or.inr ⟨List.mem_cons_of_mem _ hc, hm⟩
      · intro f hf
        rcases List.mem_cons.mp hf with rfl | hfx
        · exact hle
        · exact hall f hfx
    · have hstep : closestAcc look (some (b, i)) x = some (b, i) := by
        simp [closestAcc, hx]
      rw [hstep]
      obtain ⟨m, c, heq, hle, hor, hall⟩ := ih b i
      refine ⟨m, c, heq, hle, ?_, ?_⟩
      · rcases hor with ⟨rfl, rfl⟩ | ⟨hc, hm⟩
        · exact Or.inl ⟨rfl, rfl⟩
        · exact Or.inr ⟨List.mem_cons_of_mem _ hc, hm⟩
      · intro f hf
        rcases List.mem_cons.mp hf with rfl | hfx
        · have hxb : b ≤ look f := not_lt.mp hx
          linarith
        · exact hall f hfx

theorem closestScan_spec {α : Type} (look : α → ℚ) (l : List α) (hne : l ≠ []) :
    ∃ m c, closestScan look l = some (m, c) ∧ c ∈ l ∧ m = look c ∧
      ∀ f ∈ l, m ≤ look f := by
  cases l with
  | nil => exact absurd rfl hne
  | cons x xs =>
    have hfirst : closestAcc look none x = some (look x, x) := by
      simp [closestAcc]
    unfold closestScan
    rw [List.foldl_cons, hfirst]
    obtain ⟨m, c, heq, hle, hor, hall⟩ := foldl_closestAcc_some look xs (look x) x
    refine ⟨m, c, heq, ?_, ?_, ?_⟩
    · rcases hor with ⟨rfl, -⟩ | ⟨hc, -⟩
      · exact List.mem_cons_self _ _
      · exact List.mem_cons_of_mem _ hc
    · rcases hor with ⟨rfl, hm⟩ | ⟨-, hm⟩
      · exact hm
      · exact hm
    · intro f hf
      rcases List.mem_cons.mp hf with rfl | hfx
      · exact hle
      · exact hall f hfx

theorem greedyTourAux_onGrid {α : Type} (dist : α → α → ℚ)
    (hg : ∀ a b, OnGrid (dist a b)) :
    ∀ (fuel : ℕ) (cur : α) (l : List α), OnGrid (greedyTourAux dist fuel cur l) := by
  intro fuel
  induction fuel with
  | zero => intro cur l; exact OnGrid.zero
  | succ n ih =>
    intro cur l
    cases hpick : pickNearest (dist cur) l with
    | none =>
      unfold greedyTourAux
      rw [hpick]
      exact OnGrid.zero
    | some pr =>
      unfold greedyTourAux
      rw [hpick]
      exact (hg cur pr.1).add (ih pr.1 pr.2)

theorem greedyTour_onGrid {α : Type} (dist : α → α → ℚ)
    (hg : ∀ a b, OnGrid (dist a b)) (cur : α) (l : List α) :
    OnGrid (greedyTour dist cur l) :=
  greedyTourAux_onGrid dist hg l.length cur l

/-- C6: for a day with a non-empty visited set and travel matrices on
the two-decimal grid, the reported home travel is the minimum home
travel time over the visited facilities, the reported
facility-to-facility travel is the greedy nearest-neighbor tour that
starts at the first facility attaining that minimum, and the reported
day total is the sum of the two. -/
theorem c6_travel_reporting {α : Type} [DecidableEq α] (providerId : α)
    (pcpM ffM : α → α → Option ℚ) (facs : List α) (hne : facs ≠ [])
    (hgridH : ∀ f, OnGrid (getTravelTime pcpM providerId f))
    (hgridF : ∀ a b, OnGrid (getTravelTime ffM a b)) :
    ∃ m c,
      closestScan (fun f => getTravelTime pcpM providerId f) facs = some (m, c) ∧
      c ∈ facs ∧ m = getTravelTime pcpM providerId c ∧
      (∀ f ∈ facs, m ≤ getTravelTime pcpM providerId f) ∧
      (calculateOptimalDailyTravel providerId pcpM ffM facs).homeTravel = m ∧
      (calculateOptimalDailyTravel providerId pcpM ffM facs).facilityTravel =
        greedyTour (getTravelTime ffM) c (facs.filter (fun f => decide (f ≠ c))) ∧
      (calculateOptimalDailyTravel providerId pcpM ffM facs).totalTravel =
        m + greedyTour (getTravelTime ffM) c
          (facs.filter (fun f => decide (f ≠ c))) := by
  obtain ⟨m, c, heq, hc, hm, hall⟩ :=
    closestScan_spec (fun f => getTravelTime pcpM providerId f) facs hne
  have hres : calculateOptimalDailyTravel providerId pcpM ffM facs =
      ⟨round2 m,
       round2 (greedyTour (getTravelTime ffM) c
         (facs.filter (fun f => decide (f ≠ c)))),
       round2 (m + greedyTour (getTravelTime ffM) c
         (facs.filter (fun f => decide (f ≠ c))))⟩ := by
    unfold calculateOptimalDailyTravel
    rw [heq]
  have hmg : OnGrid m := by
    rw [hm]
    exact hgridH c
  have htg : OnGrid (greedyTour (getTravelTime ffM) c
      (facs.filter (fun f => decide (f ≠ c)))) :=
    greedyTour_onGrid (getTravelTime ffM) hgridF c _
  refine ⟨m, c, heq, hc, hm, hall, ?_, ?_, ?_⟩
  · rw [hres]
    exact round2_onGrid _ hmg
  · rw [hres]
    exact round2_onGrid _ htg
  · rw [hres]
    exact round2_onGrid _ (hmg.add htg)

/-- S6 home-travel matrix: provider 0 to facility 1 in 0.5 h, to
facility 2 in 0.7 h. -/
def s6Pcp : ℕ → ℕ → Option ℚ := fun p f =>
  if p = 0 ∧ f = 1 then some (1/2)
  else if p = 0 ∧ f = 2 then some (7/10)
  else none

/-- S6 facility-to-facility matrix: 0.2 h between facilities 1 and 2. -/
def s6Ff : ℕ → ℕ → Option ℚ := fun a b =>
  if (a = 1 ∧ b = 2) ∨ (a = 2 ∧ b = 1) then some (1/5) else none

theorem c6_witness :
    (calculateOptimalDailyTravel 0 s6Pcp s6Ff [1, 2]).homeTravel = 1/2 ∧
    (calculateOptimalDailyTravel 0 s6Pcp s6Ff [1, 2]).facilityTravel = 1/5 ∧
    (calculateOptimalDailyTravel 0 s6Pcp s6Ff [1, 2]).totalTravel = 7/10 := by
  have hg1 : ∀ f, OnGrid (getTravelTime s6Pcp 0 f) := by
    intro f
    unfold getTravelTime s6Pcp
    split_ifs
    · exact ⟨50, by norm_num⟩
    · exact ⟨70, by norm_num⟩
    · exact ⟨0, by norm_num⟩
  have hg2 : ∀ a b, OnGrid (getTravelTime s6Ff a b) := by
    intro a b
    unfold getTravelTime s6Ff
    split_ifs
    · exact ⟨20, by norm_num⟩
    · exact ⟨0, by norm_num⟩
  obtain ⟨m, c, heq, hc, hm, hall, hh, hf, ht⟩ :=
    c6_travel_reporting 0 s6Pcp s6Ff [1, 2] (by decide) hg1 hg2
  have hscan : closestScan (fun f => getTravelTime s6Pcp 0 f) [1, 2] =
      some (1/2, 1) := by
    simp only [closestScan, List.foldl_cons, List.foldl_nil]
    norm_num [closestAcc, getTravelTime, s6Pcp]
  rw [hscan] at heq
  have h1 := Option.some.inj heq
  rw [Prod.mk.injEq] at h1
  obtain ⟨hm2, hc2⟩ := h1
  subst hm2
  subst hc2
  have hfilter : ([1, 2] : List ℕ).filter (fun f => decide (f ≠ 1)) = [2] := by
    decide
  rw [hfilter] at hf ht
  have hpick : pickNearest (getTravelTime s6Ff 1) [2] = some (2, []) := by
    simp [pickNearest]
  have htour : greedyTour (getTravelTime s6Ff) 1 [2] = 1/5 := by
    have hstep : greedyTour (getTravelTime s6Ff) 1 [2] =
        getTravelTime s6Ff 1 2 + greedyTourAux (getTravelTime s6Ff) 0 2 [] := by
      show greedyTourAux (getTravelTime s6Ff) 1 1 [2] = _
      unfold greedyTourAux
      rw [hpick]
      rfl
    rw [hstep]
    norm_num [greedyTourAux, getTravelTime, s6Ff]
  rw [htour] at hf ht
  refine ⟨hh, hf, ?_⟩
  rw [ht]
  norm_num

/-! ## Claim C10: default arguments crash before the structured handler

Source: model file lines 69-93 (working_days is assigned only inside
the start_monday branch and line 93 reads it unconditionally, a
NameError when start_monday is None), line 131 (ValueError when patient
data is missing), line 155 (ValueError when distance data is missing),
line 174 (iterating weekly_availability, a TypeError when it is None),
and line 220 (the try block that produces the structured Error
dictionary starts only after all of these). -/

/-- Python exceptions the pre-try section can raise. -/
inductive PyExc where
  | nameError
  | typeError
  | valueError (msg : String)
deriving DecidableEq

/-- Embedding of the pre-try section of
create_and_solve_optimization_model, in source order: horizon (NameError
when start_monday is None), patient-data check, distance-data check,
weekly-availability iteration (TypeError when None).  The start date is
taken already parsed; the data checks are abstracted to flags. -/
def modelPreTry (startMonday : Option ℕ) (weeks : ℕ)
    (patientDataOk distanceDataOk : Bool)
    (weeklyAvailability : Option (List (String × Bool))) :
    Except PyExc (List ℕ × List (String × Bool)) :=
  match startMonday with
  | none => .error .nameError
  | some start =>
    let workingDays := workingDaysList start weeks
    if !patientDataOk then
      .error (.valueError "patient data with patient_counts is required")
    else if !distanceDataOk then
      .error (.valueError "distance data is required")
    else
      match weeklyAvailability with
      | none => .error .typeError
      | some wa => .ok (workingDays, wa)

/-- The remainder of the function runs inside try/except (model file
lines 220-806) and always returns a results dictionary; pre-try
exceptions propagate uncaught. -/
def createAndSolveOutcome (startMonday : Option ℕ) (weeks : ℕ)
    (patientDataOk distanceDataOk : Bool)
    (weeklyAvailability : Option (List (String × Bool)))
    (tryBody : List ℕ × List (String × Bool) → SolveResults (List ℕ)) :
    Except PyExc (SolveResults (List ℕ)) :=
  match modelPreTry startMonday weeks patientDataOk distanceDataOk
      weeklyAvailability with
  | .error e => .error e
  | .ok st => .ok (tryBody st)

/-- C10: a call with start_monday None or weekly_availability None
raises an uncaught exception instead of returning any dictionary:
start_monday of None raises the NameError of line 93; with the earlier
checks passing, weekly_availability of None raises the TypeError of
line 174; and in every such call the outcome is an exception, never a
structured result. -/
theorem c10_default_arguments_crash (weeks : ℕ) (pOk dOk : Bool)
    (wa : Option (List (String × Bool))) (sm : Option ℕ)
    (tryBody : List ℕ × List (String × Bool) → SolveResults (List ℕ))
    (h : sm = none ∨ wa = none) :
    (sm = none →
      createAndSolveOutcome sm weeks pOk dOk wa tryBody =
        Except.error PyExc.nameError) ∧
    (∀ start, sm = some start → pOk = true → dOk = true → wa = none →
      createAndSolveOutcome sm weeks pOk dOk wa tryBody =
        Except.error PyExc.typeError) ∧
    ∃ e, createAndSolveOutcome sm weeks pOk dOk wa tryBody = Except.error e := by
  refine ⟨?_, ?_, ?_⟩
  · intro hsm
    subst hsm
    rfl
  · intro start hsm hp hd hwa
    subst hsm
    subst hp
    subst hd
    subst hwa
    rfl
  · rcases h with hsm | hwa
    · subst hsm
      exact ⟨.nameError, rfl⟩
    · subst hwa
      cases sm with
      | none => exact ⟨.nameError, rfl⟩
      | some s =>
        cases pOk with
        | false =>
          exact ⟨.valueError "patient data with patient_counts is required", rfl⟩
        | true =>
          cases dOk with
          | false => exact ⟨.valueError "distance data is required", rfl⟩
          | true => exact ⟨.typeError, rfl⟩

theorem c10_witness :
    createAndSolveOutcome none 4 true true (some [])
      (fun st => ⟨"Optimal", none, some st.1⟩) =
      Except.error PyExc.nameError :=
  (c10_default_arguments_crash 4 true true (some []) none
    (fun st => ⟨"Optimal", none, some st.1⟩) (Or.inl rfl)).1 rfl

/-! ## Claim C1: feasibility pre-flight gating -/

/-- Outcome of the feasibility pre-flight. -/
inductive PreflightOutcome where
  | rejectedCapacity (dHat a c : ℕ) (alpha : ℚ)
  | rejectedConflict (facilityId date : String)
  | accepted
deriving DecidableEq

/-- Modelled from the spec: the feasibility pre-flight of spec section
4.4 is not implemented in the Python sources under src (the model file
only computes the demand and capacity figures, lines 135-152 and
206-208, and never rejects on them); the rejection rules follow the
words of the spec.  dHat is the source-derived adjusted demand (sum of
per-facility rounded requirements), A the count of available
provider-days, C = A times the daily cap.  The capacity rule is listed
first in the spec and is checked first; otherwise the first supplied
required visit whose date lies in the unavailability set is named. -/
def preflight (alpha : ℚ) (counts : List ℚ) (facilities : ℕ)
    (availableDays maxPatientsPerDay : ℕ)
    (requiredVisits : List (String × String))
    (unavailableDates : List String) : PreflightOutcome :=
  let dHat := totalRealDemand alpha counts facilities
  let cap := availableDays * maxPatientsPerDay
  if cap < dHat then
    .rejectedCapacity dHat availableDays cap alpha
  else
    match requiredVisits.find? (fun rv => unavailableDates.contains rv.2) with
    | some rv => .rejectedConflict rv.1 rv.2
    | none => .accepted

/-- The MIP is built and the solver invoked only on an accepting
pre-flight. -/
def preflightAllows (o : PreflightOutcome) : Bool :=
  match o with
  | .accepted => true
  | _ => false

/-- C1 (spec-modelled): when adjusted demand exceeds effective capacity
the request is rejected with the capacity message reporting dHat, A, C
and alpha; when capacity suffices but some supplied required visit
falls on an unavailable date, the request is rejected with a conflict
message naming a conflicting facility id and date; in both cases the
pre-flight does not accept, so no MIP is built and the solver is not
invoked; conversely an accepting pre-flight means capacity suffices and
no required visit conflicts. -/
theorem c1_preflight_gating (alpha : ℚ) (counts : List ℚ)
    (facilities availableDays maxPatients : ℕ)
    (req : List (String × String)) (unavail : List String) :
    (availableDays * maxPatients < totalRealDemand alpha counts facilities →
      preflight alpha counts facilities availableDays maxPatients req unavail =
        PreflightOutcome.rejectedCapacity
          (totalRealDemand alpha counts facilities) availableDays
          (availableDays * maxPatients) alpha ∧
      preflightAllows
        (preflight alpha counts facilities availableDays maxPatients req
          unavail) = false) ∧
    (¬ availableDays * maxPatients < totalRealDemand alpha counts facilities →
      ∀ rv ∈ req, unavail.contains rv.2 = true →
      (∃ rv', rv' ∈ req ∧ unavail.contains rv'.2 = true ∧
        preflight alpha counts facilities availableDays maxPatients req
          unavail = PreflightOutcome.rejectedConflict rv'.1 rv'.2) ∧
      preflightAllows
        (preflight alpha counts facilities availableDays maxPatients req
          unavail) = false) ∧
    (preflightAllows
        (preflight alpha counts facilities availableDays maxPatients req
          unavail) = true →
      ¬ availableDays * maxPatients < totalRealDemand alpha counts facilities ∧
      ∀ rv ∈ req, unavail.contains rv.2 = false) := by
  refine ⟨?_, ?_, ?_⟩
  · intro h
    rw [preflight]
    simp only [if_pos h]
    exact ⟨trivial, rfl⟩
  · intro h rv hrv hconf
    rw [preflight]
    simp only [if_neg h]
    cases hfind : req.find? (fun rv => unavail.contains rv.2) with
    | none =>
      have hnone := List.find?_eq_none.mp hfind rv hrv
      rw [hconf] at hnone
      simp at hnone
    | some rv' =>
      have hmem := List.mem_of_find?_eq_some hfind
      have hpred := List.find?_some hfind
      exact ⟨⟨rv', hmem, hpred, rfl⟩, rfl⟩
  · intro hacc
    by_cases h : availableDays * maxPatients < totalRealDemand alpha counts facilities
    · rw [preflight] at hacc
      simp only [if_pos h] at hacc
      simp [preflightAllows] at hacc
    · refine ⟨h, ?_⟩
      intro rv hrv
      rw [preflight] at hacc
      simp only [if_neg h] at hacc
      cases hfind : req.find? (fun rv => unavail.contains rv.2) with
      | none => simpa using List.find?_eq_none.mp hfind rv hrv
      | some rv' =>
        rw [hfind] at hacc
        simp [preflightAllows] at hacc

theorem c1_witness :
    preflight 0 [(120 : ℚ)] 1 20 5 [] [] =
      PreflightOutcome.rejectedCapacity 120 20 100 0 ∧
    preflightAllows (preflight 0 [(120 : ℚ)] 1 20 5 [] []) = false := by
  have h120 : adjustedRequirement 0 (120 : ℚ) = 120 := by
    have h1 : (120 : ℚ) * (1 + 0) = ((120 : ℤ) : ℚ) := by norm_num
    rw [adjustedRequirement, h1, pyRound_intCast]
    rfl
  have hd : totalRealDemand 0 [(120 : ℚ)] 1 = 120 := by
    simp [totalRealDemand, patientRequirements, h120]
  have h := (c1_preflight_gating 0 [(120 : ℚ)] 1 20 5 [] []).1
    (by rw [hd]; norm_num)
  rw [hd] at h
  exact h

/-! ## Claim C8: date-specific required-visit validation -/

/-- A supplied date-specific required-visit entry: a facility id and an
ISO date string. -/
structure DateConstraint where
  facilityId : String
  date : String
deriving DecidableEq

/-- The three user-visible rejection reasons of spec section 4.3 step 3. -/
inductive DateConstraintError where
  | unknownFacility (facilityId : String)
  | dateNotInHorizon (date : String)
  | notAssigned (facilityId : String)
deriving DecidableEq

/-- Modelled from the spec: the validation of date-specific required
visits (spec section 4.3 step 3) is not implemented in the Python
sources under src (app.py never reads date constraints and the model
file receives already-compiled triples); the checks follow the words of
the spec: reject when the facility id is unknown, when the date is not
a horizon weekday, or when the (provider, facility) pair is not an
Assignment; a valid entry maps to the facility id and the day index of
its date. -/
def validateDateConstraint (knownFacilities assignedFacilities
    horizonDates : List String) (e : DateConstraint) :
    Except DateConstraintError (String × ℕ) :=
  if e.facilityId ∈ knownFacilities then
    if e.date ∈ horizonDates then
      if e.facilityId ∈ assignedFacilities then
        .ok (e.facilityId, horizonDates.indexOf e.date)
      else .error (.notAssigned e.facilityId)
    else .error (.dateNotInHorizon e.date)
  else .error (.unknownFacility e.facilityId)

/-- Modelled from the spec: compiling the supplied entries stops at the
first invalid one with its user-visible error; otherwise it returns the
triples of every entry. -/
def compileDateConstraints (knownFacilities assignedFacilities
    horizonDates : List String) :
    List DateConstraint → Except DateConstraintError (List (String × ℕ))
  | [] => .ok []
  | e :: rest =>
    match validateDateConstraint knownFacilities assignedFacilities
        horizonDates e with
    | .error err => .error err
    | .ok t =>
      match compileDateConstraints knownFacilities assignedFacilities
          horizonDates rest with
      | .error err => .error err
      | .ok ts => .ok (t :: ts)

/-- C8 (spec-modelled): a supplied entry validates exactly when its
facility id is known, its date is a horizon weekday, and the facility
is assigned to the provider; an entry failing any of the checks
surfaces a structured user-visible error value; and the compiled output
succeeds exactly when every supplied entry is valid, in which case the
produced required-visit triples are exactly the per-entry validations
in order. -/
theorem c8_date_constraint_validation (kf af hd : List String) :
    (∀ e : DateConstraint,
      (∃ t, validateDateConstraint kf af hd e = Except.ok t) ↔
        (e.facilityId ∈ kf ∧ e.date ∈ hd ∧ e.facilityId ∈ af)) ∧
    (∀ e : DateConstraint,
      (∃ err, validateDateConstraint kf af hd e = Except.error err) ↔
        ¬ (e.facilityId ∈ kf ∧ e.date ∈ hd ∧ e.facilityId ∈ af)) ∧
    (∀ l ts, compileDateConstraints kf af hd l = Except.ok ts ↔
      List.Forall₂ (fun e t => validateDateConstraint kf af hd e = Except.ok t)
        l ts) := by
  have hval : ∀ e : DateConstraint,
      (∃ t, validateDateConstraint kf af hd e = Except.ok t) ↔
        (e.facilityId ∈ kf ∧ e.date ∈ hd ∧ e.facilityId ∈ af) := by
    intro e
    unfold validateDateConstraint
    split_ifs with h1 h2 h3
    · exact ⟨fun _ => ⟨h1, h2, h3⟩, fun _ => ⟨_, rfl⟩⟩
    · constructor
      · rintro ⟨t, ht⟩
        cases ht
      · rintro ⟨-, -, h⟩
        exact absurd h h3
    · constructor
      · rintro ⟨t, ht⟩
        cases ht
      · rintro ⟨-, h, -⟩
        exact absurd h h2
    · constructor
      · rintro ⟨t, ht⟩
        cases ht
      · rintro ⟨h, -, -⟩
        exact absurd h h1
  refine ⟨hval, ?_, ?_⟩
  · intro e
    rw [← hval e]
    constructor
    · rintro ⟨err, herr⟩ ⟨t, ht⟩
      rw [herr] at ht
      cases ht
    · intro hno
      cases hv : validateDateConstraint kf af hd e with
      | ok t => exact absurd ⟨t, hv⟩ hno
      | error err => exact ⟨err, rfl⟩
  · intro l
    induction l with
    | nil =>
      intro ts
      constructor
      · intro h
        cases h
        exact List.Forall₂.nil
      · intro h
        cases h
        rfl
    | cons e rest ih =>
      intro ts
      constructor
      · intro h
        unfold compileDateConstraints at h
        cases hv : validateDateConstraint kf af hd e with
        | error err =>
          rw [hv] at h
          cases h
        | ok t =>
          rw [hv] at h
          cases hc : compileDateConstraints kf af hd rest with
          | error err =>
            rw [hc] at h
            cases h
          | ok ts' =>
            rw [hc] at h
            cases h
            exact List.Forall₂.cons hv ((ih ts').mp hc)
      · intro h
        cases h with
        | cons hv hrest =>
          unfold compileDateConstraints
          rw [hv]
          rename_i t ts'
          rw [(ih ts').mpr hrest]
